import Mathlib

/-!
Verification of the Kuns OS installer orchestrator
(`airootfs/usr/local/bin/kuns-installer.py`, class `ArchInstallThread`).

The installer is a sequential workflow that drives external system tools.
We embed it shallowly: every external effect (the `os.path.exists` check,
every `subprocess.Popen` run issued through `_run_command`, every direct
file write / `os.makedirs`) is resolved by an abstract environment `Env`;
the outcome of the i-th command invocation (respectively the i-th direct
filesystem operation) is `Env.cmd i c` (respectively `Env.fsOk i p`), so a
single run can observe different outcomes for the same command string at
different times.  The Qt signals `progress`, `status`, `log_output` and
`finished` become an event trace; a raised Python exception becomes an
`Except.error` value that propagates through the monad `M` exactly as an
exception propagates through the Python call stack, until `threadRun`
(the top-level `try/except` of `ArchInstallThread.run`) catches it.

Deliberate abstractions, noted once here:
* `time.sleep` has no observable effect and is dropped;
* a subprocess's streamed output lines are supplied by the environment
  (already stripped and non-empty, as the Python loop forwards them);
* the text of a caught exception (`str(e)`) is rendered by the fixed
  function `Fault.describe` (in Python it is environment-dependent);
* Python's `list(set(...))` enumerates a set in an unspecified order; we
  use `List.dedup`, and prove only order-independent (set) facts about it.
-/

/-- One event published to the installer's observers (the four Qt signals
of `ArchInstallThread`). -/
inductive Event where
  | progress (n : Nat)
  | status (s : String)
  | log (s : String)
  | finished (ok : Bool) (msg : String)
deriving DecidableEq

/-- Outcome of launching one child process: it runs to completion with an
exit code and a list of (stripped, non-empty) output lines, or some
exception is raised while launching/reading it. -/
inductive CmdOutcome where
  | exits (code : Int) (output : List String)
  | raises (msg : String)
deriving DecidableEq

/-- A raised Python exception, as far as the installer can observe it:
an I/O error from a direct file operation (`open`/`write`/`os.makedirs`),
or an `AttributeError` from reading an attribute that was never set. -/
inductive Fault where
  | ioError (path : String)
  | attrError (name : String)
deriving DecidableEq

/-- Rendering of `str(e)` for a caught exception (abstraction: the real
text is environment-dependent; no claim depends on it). -/
def Fault.describe : Fault → String
  | Fault.ioError p => "I/O error: " ++ p
  | Fault.attrError n => "AttributeError: " ++ n

/-- The abstract environment resolving every external effect of a run. -/
structure Env where
  pathExists : String → Bool
  cmd : Nat → String → CmdOutcome
  fsOk : Nat → String → Bool

/-- The `config` dict handed to `ArchInstallThread.__init__`.  Every stage
reads it with `config.get(key, default)`, so each key may be absent. -/
structure Config where
  disk : Option String
  hostname : Option String
  username : Option String
  password : Option String
  root_password : Option String
  keymap : Option String
  timezone : Option String
  locale : Option String
  packages : Option (List String)

/-- `config.get('disk', '/dev/sda')`. -/
def Config.getDisk (c : Config) : String := c.disk.getD "/dev/sda"

/-- `config.get('hostname', 'kuns-os')`. -/
def Config.getHostname (c : Config) : String := c.hostname.getD "kuns-os"

/-- `config.get('username', 'kunsos')`. -/
def Config.getUsername (c : Config) : String := c.username.getD "kunsos"

/-- `config.get('password', '')`. -/
def Config.getPassword (c : Config) : String := c.password.getD ""

/-- `config.get('root_password', '')`. -/
def Config.getRootPassword (c : Config) : String := c.root_password.getD ""

/-- `config.get('keymap', 'us')`. -/
def Config.getKeymap (c : Config) : String := c.keymap.getD "us"

/-- `config.get('timezone', 'UTC')`. -/
def Config.getTimezone (c : Config) : String := c.timezone.getD "UTC"

/-- `config.get('locale', 'en_US.UTF-8')`. -/
def Config.getLocale (c : Config) : String := c.locale.getD "en_US.UTF-8"

/-- `config.get('packages', [])`. -/
def Config.getPackages (c : Config) : List String := c.packages.getD []

/-- Mutable state threaded through a run: the effect counters consumed by
the environment oracles, the `efi_partition`/`root_partition` attributes
(unset before `_create_filesystems` stores them), the published event
trace, and the trace of commands handed to `_run_command`. -/
structure St where
  cmdIdx : Nat
  fsIdx : Nat
  efiPart : Option String
  rootPart : Option String
  events : List Event
  cmds : List String
deriving DecidableEq

def St.start : St := ⟨0, 0, none, none, [], []⟩

def St.push (st : St) (e : Event) : St := { st with events := st.events ++ [e] }

/-- The installer's effect monad: state passing plus exception
propagation (`Except.error` is an in-flight Python exception). -/
def M (α : Type) : Type := St → Except Fault α × St

def mret {α : Type} (a : α) : M α := fun st => (Except.ok a, st)

def mbind {α β : Type} (x : M α) (f : α → M β) : M β := fun st =>
  match x st with
  | (Except.ok a, st1) => f a st1
  | (Except.error e, st1) => (Except.error e, st1)

/-- Sequencing that discards the first result (plain `;` in Python). -/
def mthen {α β : Type} (x : M α) (y : M β) : M β := mbind x fun _ => y

/-- The `if not <call>: return False` pattern used after every strict
command in the source. -/
def step (x : M Bool) (y : M Bool) : M Bool :=
  mbind x fun ok => if ok then y else mret false

/-- Emit one signal. -/
def emit (e : Event) : M Unit := fun st => (Except.ok (), st.push e)

/-- `self.mount_point = "/mnt"`. -/
def mountPoint : String := "/mnt"

/-- `self.boot_mount = "/mnt/boot"`. -/
def bootMount : String := "/mnt/boot"

/-- `_run_command(cmd, description, check)`: logs `Executing: ...`, spawns
the process, forwards its output lines, and converts every outcome to a
boolean — an exception is caught, logged, and becomes `False`.  All call
sites in the source pass a shell string, never an argument vector. -/
def runCommand (env : Env) (c : String) (description : String) (check : Bool) :
    M Bool := fun st =>
  let st1 : St :=
    { st with events := st.events ++ [Event.log ("Executing: " ++ c)],
              cmds := st.cmds ++ [c], cmdIdx := st.cmdIdx + 1 }
  match env.cmd st.cmdIdx c with
  | CmdOutcome.raises msg =>
      (Except.ok false,
       { st1 with events := st1.events ++ [Event.log ("Command execution error: " ++ msg)] })
  | CmdOutcome.exits code output =>
      let st2 : St := { st1 with events := st1.events ++ output.map Event.log }
      if check && !(code == 0) then
        (Except.ok false,
         { st2 with events := st2.events ++ [Event.log ("Command failed with return code " ++ toString code)] })
      else
        (Except.ok true, st2)

/-- The boolean `_run_command` produces, as a function of the oracle's
outcome for that invocation. -/
def cmdResult (env : Env) (i : Nat) (c : String) (check : Bool) : Bool :=
  match env.cmd i c with
  | CmdOutcome.exits code _ => !(check && !(code == 0))
  | CmdOutcome.raises _ => false

/-- A direct `open(path, "w").write(content)`: consumes one filesystem
oracle slot; an unhappy oracle is a raised `IOError` (uncaught in the
source). -/
def writeFile (env : Env) (path content : String) : M Unit := fun st =>
  let st1 : St := { st with fsIdx := st.fsIdx + 1 }
  if env.fsOk st.fsIdx path then (Except.ok (), st1)
  else (Except.error (Fault.ioError path), st1)

/-- `os.makedirs(path, exist_ok=True)`: same oracle, may also raise. -/
def makeDirs (env : Env) (path : String) : M Unit := fun st =>
  let st1 : St := { st with fsIdx := st.fsIdx + 1 }
  if env.fsOk st.fsIdx path then (Except.ok (), st1)
  else (Except.error (Fault.ioError path), st1)

/-- Reading `self.root_partition`; raises `AttributeError` when
`_create_filesystems` has not stored it. -/
def getRootPart : M String := fun st =>
  match st.rootPart with
  | some r => (Except.ok r, st)
  | none => (Except.error (Fault.attrError "root_partition"), st)

/-- Reading `self.efi_partition`. -/
def getEfiPart : M String := fun st =>
  match st.efiPart with
  | some r => (Except.ok r, st)
  | none => (Except.error (Fault.attrError "efi_partition"), st)

/-- `self.efi_partition = ...; self.root_partition = ...`. -/
def setParts (efi root : String) : M Unit := fun st =>
  (Except.ok (), { st with efiPart := some efi, rootPart := some root })

/-- Whether `pat` occurs in `s` starting at its head. -/
def charsStart : List Char → List Char → Bool
  | _, [] => true
  | [], _ :: _ => false
  | c :: cs, p :: ps => c == p && charsStart cs ps

/-- Whether `pat` occurs anywhere in `s` (Python's `pat in s`). -/
def charsHave : List Char → List Char → Bool
  | [], ps => ps.isEmpty
  | c :: cs, ps => charsStart (c :: cs) ps || charsHave cs ps

/-- Python's `pat in disk` substring test. -/
def strContains (s pat : String) : Bool := charsHave s.toList pat.toList

/-- The partition naming rule of `_create_filesystems` (lines 161-167):
disks whose name contains `nvme` or `mmc` get a `p` before the partition
number. -/
def partitionDevs (disk : String) : String × String :=
  if strContains disk "nvme" || strContains disk "mmc" then
    (disk ++ "p1", disk ++ "p2")
  else
    (disk ++ "1", disk ++ "2")

/-- The same rule re-derived for `boot_part` in `_install_bootloader`
(lines 348-352; the variable is computed and then never used). -/
def bootPartOf (disk : String) : String :=
  if strContains disk "nvme" || strContains disk "mmc" then disk ++ "p1"
  else disk ++ "1"

/-- Fixed minimal base package set of `_get_packages_list`. -/
def base_packages : List String :=
  ["base", "base-devel", "linux", "linux-firmware",
   "networkmanager", "grub", "efibootmgr", "dosfstools",
   "mtools", "os-prober", "sudo", "nano", "vim"]

/-- Fixed Kuns OS desktop/application package set of `_get_packages_list`. -/
def kuns_packages : List String :=
  ["enlightenment", "terminology", "lightdm", "lightdm-gtk-greeter",
   "firefox", "dolphin", "kate", "konsole", "gwenview",
   "nautilus", "gnome-calculator", "gnome-screenshot",
   "flatpak", "noto-fonts", "noto-fonts-cjk", "ttf-dejavu", "ttf-liberation"]

/-- `_get_packages_list`: `list(set(base + kuns + user))`.  `List.dedup`
stands in for the unordered Python set; only set-level facts are claimed. -/
def getPackagesList (cfg : Config) : List String :=
  (base_packages ++ kuns_packages ++ cfg.getPackages).dedup

/-- `_prepare_disk` (lines 118-154). -/
def prepareDisk (env : Env) (cfg : Config) : M Bool :=
  mthen (emit (Event.status "Preparing disk...")) <|
  let disk := cfg.getDisk
  if env.pathExists disk then
    mthen (emit (Event.log "Unmounting existing partitions...")) <|
    mthen (runCommand env ("umount -R " ++ mountPoint) "" false) <|
    mthen (emit (Event.log "Creating new partition table...")) <|
    step (runCommand env ("parted -s " ++ disk ++ " mklabel gpt") "" true) <|
    mthen (emit (Event.log "Creating EFI partition...")) <|
    step (runCommand env ("parted -s " ++ disk ++ " mkpart primary fat32 1MiB 513MiB") "" true) <|
    step (runCommand env ("parted -s " ++ disk ++ " set 1 esp on") "" true) <|
    mthen (emit (Event.log "Creating root partition...")) <|
    step (runCommand env ("parted -s " ++ disk ++ " mkpart primary ext4 513MiB 100%") "" true) <|
    mthen (runCommand env "partprobe" "" false) <|
    mret true
  else
    mthen (emit (Event.log ("Disk " ++ disk ++ " does not exist"))) (mret false)

/-- `_create_filesystems` (lines 156-183). -/
def createFilesystems (env : Env) (cfg : Config) : M Bool :=
  mthen (emit (Event.status "Creating filesystems...")) <|
  let parts := partitionDevs cfg.getDisk
  mthen (emit (Event.log "Formatting EFI partition...")) <|
  step (runCommand env ("mkfs.fat -F32 " ++ parts.1) "" true) <|
  mthen (emit (Event.log "Formatting root partition...")) <|
  step (runCommand env ("mkfs.ext4 -F " ++ parts.2) "" true) <|
  mthen (setParts parts.1 parts.2) <|
  mret true

/-- `_mount_filesystems` (lines 185-206). -/
def mountFilesystems (env : Env) : M Bool :=
  mthen (emit (Event.status "Mounting filesystems...")) <|
  mthen (makeDirs env mountPoint) <|
  mthen (emit (Event.log "Mounting root partition...")) <|
  mbind getRootPart fun rp =>
  step (runCommand env ("mount " ++ rp ++ " " ++ mountPoint) "" true) <|
  mthen (emit (Event.log "Creating boot mount point...")) <|
  mthen (makeDirs env bootMount) <|
  mthen (emit (Event.log "Mounting EFI partition...")) <|
  mbind getEfiPart fun ep =>
  step (runCommand env ("mount " ++ ep ++ " " ++ bootMount) "" true) <|
  mret true

/-- `_install_base_system` (lines 208-223). -/
def installBaseSystem (env : Env) (cfg : Config) : M Bool :=
  mthen (emit (Event.status "Installing base system...")) <|
  let packagesStr := String.intercalate " " (getPackagesList cfg)
  mthen (emit (Event.log ("Installing packages: " ++ packagesStr))) <|
  step (runCommand env ("pacstrap " ++ mountPoint ++ " " ++ packagesStr) "" true) <|
  mret true

/-- `_generate_fstab` (lines 247-255). -/
def generateFstab (env : Env) : M Bool :=
  mthen (emit (Event.status "Generating fstab...")) <|
  mthen (emit (Event.log "Generating fstab file...")) <|
  step (runCommand env ("genfstab -U " ++ mountPoint ++ " >> " ++ mountPoint ++ "/etc/fstab") "" true) <|
  mret true

/-- The `sed` that uncomments a locale in `/etc/locale.gen`. -/
def localeSedCmd (l : String) : String :=
  "arch-chroot " ++ mountPoint ++ " sed -i \x27s/^#" ++ l ++ "/" ++ l ++ "/\x27 /etc/locale.gen"

/-- The in-chroot `chpasswd` invocation that sets root's password. -/
def rootSetCmd (pw : String) : String :=
  "arch-chroot " ++ mountPoint ++ " bash -c \x27echo \"root:" ++ pw ++ "\" | chpasswd\x27"

/-- The in-chroot `useradd` invocation. -/
def userAddCmd (username : String) : String :=
  "arch-chroot " ++ mountPoint ++ " useradd -m -G wheel -s /bin/bash " ++ username

/-- The in-chroot `chpasswd` invocation for the created user. -/
def userSetCmd (username pw : String) : String :=
  "arch-chroot " ++ mountPoint ++ " bash -c \x27echo \"" ++ username ++ ":" ++ pw ++ "\" | chpasswd\x27"

/-- The `sed` that uncomments the wheel line in `/etc/sudoers`. -/
def sudoersSedCmd : String :=
  "arch-chroot " ++ mountPoint ++ " sed -i \x27s/^# %wheel ALL=(ALL:ALL) ALL/%wheel ALL=(ALL:ALL) ALL/\x27 /etc/sudoers"

/-- The templated `/etc/hosts` content. -/
def hostsContent (hostname : String) : String :=
  "127.0.0.1\tlocalhost\n::1\t\tlocalhost\n127.0.1.1\t" ++ hostname ++ ".localdomain\t" ++ hostname ++ "\n"

/-- Lines 307-312 of `_configure_system`: the root password is set only
when `root_password` is non-empty (Python truthiness of the string). -/
def rootPasswordStep (env : Env) (cfg : Config) : M Bool :=
  let rp := cfg.getRootPassword
  if rp != "" then
    mthen (emit (Event.log "Setting root password...")) <|
    runCommand env (rootSetCmd rp) "" true
  else mret true

/-- Lines 314-323 of `_configure_system`: the user is created only when
both `username` and `password` are non-empty. -/
def userCreateStep (env : Env) (cfg : Config) : M Bool :=
  let username := cfg.getUsername
  let pw := cfg.getPassword
  if username != "" && pw != "" then
    mthen (emit (Event.log ("Creating user " ++ username ++ "..."))) <|
    step (runCommand env (userAddCmd username) "" true) <|
    runCommand env (userSetCmd username pw) "" true
  else mret true

/-- `_configure_system` (lines 257-340). -/
def configureSystem (env : Env) (cfg : Config) : M Bool :=
  mthen (emit (Event.status "Configuring system...")) <|
  let timezone := cfg.getTimezone
  mthen (emit (Event.log ("Setting timezone to " ++ timezone))) <|
  step (runCommand env ("arch-chroot " ++ mountPoint ++ " ln -sf /usr/share/zoneinfo/" ++ timezone ++ " /etc/localtime") "" true) <|
  step (runCommand env ("arch-chroot " ++ mountPoint ++ " hwclock --systohc") "" true) <|
  let locale := cfg.getLocale
  mthen (emit (Event.log ("Setting locale to " ++ locale))) <|
  step (runCommand env (localeSedCmd locale) "" true) <|
  step (if locale != "en_US.UTF-8" then runCommand env (localeSedCmd "en_US.UTF-8") "" true else mret true) <|
  step (runCommand env ("arch-chroot " ++ mountPoint ++ " locale-gen") "" true) <|
  mthen (writeFile env (mountPoint ++ "/etc/locale.conf") ("LANG=" ++ locale ++ "\n")) <|
  mthen (writeFile env (mountPoint ++ "/etc/vconsole.conf") ("KEYMAP=" ++ cfg.getKeymap ++ "\n")) <|
  let hostname := cfg.getHostname
  mthen (writeFile env (mountPoint ++ "/etc/hostname") (hostname ++ "\n")) <|
  mthen (writeFile env (mountPoint ++ "/etc/hosts") (hostsContent hostname)) <|
  step (rootPasswordStep env cfg) <|
  step (userCreateStep env cfg) <|
  mthen (emit (Event.log "Configuring sudo...")) <|
  step (runCommand env sudoersSedCmd "" true) <|
  mthen (emit (Event.log "Enabling NetworkManager...")) <|
  step (runCommand env ("arch-chroot " ++ mountPoint ++ " systemctl enable NetworkManager") "" true) <|
  mthen (emit (Event.log "Enabling LightDM...")) <|
  step (runCommand env ("arch-chroot " ++ mountPoint ++ " systemctl enable lightdm") "" true) <|
  mret true

/-- The unconditional EFI-mode GRUB install attempt (line 367). -/
def efiInstallCmd : String :=
  "arch-chroot " ++ mountPoint ++ " grub-install --target=x86_64-efi --efi-directory=/boot --bootloader-id=KunsOS --no-nvram --removable"

/-- The unconditional legacy BIOS GRUB install attempt (line 370). -/
def biosInstallCmd (disk : String) : String :=
  "arch-chroot " ++ mountPoint ++ " grub-install --target=i386-pc " ++ disk

/-- The strict GRUB configuration generation (line 383). -/
def mkconfigCmd : String :=
  "arch-chroot " ++ mountPoint ++ " grub-mkconfig -o /boot/grub/grub.cfg"

/-- The strict creation of `/boot/EFI` (line 360). -/
def mkdirEfiCmd : String :=
  "arch-chroot " ++ mountPoint ++ " mkdir -p /boot/EFI"

/-- The standalone GRUB config written for manual recovery (lines 394-399). -/
def standaloneCfg (rootPart : String) : String :=
  "\nset root=\x27hd0,gpt2\x27\nlinux /boot/vmlinuz-linux root=UUID=$(blkid -s UUID -o value "
    ++ rootPart ++ ") rw\ninitrd /boot/initramfs-linux.img\nboot\n"

/-- `_install_bootloader` (lines 342-408). -/
def installBootloader (env : Env) (cfg : Config) : M Bool :=
  mthen (emit (Event.status "Installing bootloader...")) <|
  let disk := cfg.getDisk
  let _bootPart := bootPartOf disk
  mthen (emit (Event.log "Setting boot flag on EFI partition...")) <|
  mthen (runCommand env ("parted " ++ disk ++ " set 1 boot on") "" false) <|
  mthen (emit (Event.log "Creating EFI boot directory...")) <|
  step (runCommand env mkdirEfiCmd "" true) <|
  mthen (emit (Event.log "Installing GRUB for both EFI and BIOS...")) <|
  mbind (runCommand env efiInstallCmd "" false) fun efiSuccess =>
  mbind (runCommand env (biosInstallCmd disk) "" false) fun biosSuccess =>
  mthen (if efiSuccess then emit (Event.log "EFI GRUB installation successful") else mret ()) <|
  mthen (if biosSuccess then emit (Event.log "BIOS GRUB installation successful") else mret ()) <|
  mthen (if !efiSuccess && !biosSuccess then emit (Event.log "WARNING: Both EFI and BIOS installation failed!") else mret ()) <|
  mthen (emit (Event.log "Generating GRUB configuration...")) <|
  step (runCommand env mkconfigCmd "" true) <|
  mthen (emit (Event.log "Creating fallback boot entries...")) <|
  mthen (runCommand env ("arch-chroot " ++ mountPoint ++ " mkdir -p /boot/EFI/BOOT") "" false) <|
  mthen (runCommand env ("arch-chroot " ++ mountPoint ++ " cp /boot/EFI/KunsOS/grubx64.efi /boot/EFI/BOOT/BOOTX64.EFI") "" false) <|
  mbind getRootPart fun rp =>
  mthen (writeFile env (mountPoint ++ "/boot/grub/grub-standalone.cfg") (standaloneCfg rp)) <|
  mthen (emit (Event.log "Making disk bootable...")) <|
  mthen (runCommand env ("parted " ++ disk ++ " set 1 legacy_boot on") "" false) <|
  mret true

/-- `_cleanup_installation` (lines 410-418): best-effort, returns nothing. -/
def cleanupInstallation (env : Env) : M Unit :=
  mthen (emit (Event.status "Cleaning up...")) <|
  mthen (emit (Event.log "Unmounting filesystems...")) <|
  mthen (runCommand env ("umount -R " ++ mountPoint) "" false) <|
  emit (Event.log "Installation cleanup completed")

/-- Terminal success message of `run`. -/
def successMsg : String := "Kuns OS installation completed successfully!"

/-- The tail of `run` after all seven gated stages succeeded: cleanup,
`progress(100)`, final status, `finished(True, ...)` (lines 76-81). -/
def finishTail (env : Env) : M Unit :=
  mthen (cleanupInstallation env) <|
  mthen (emit (Event.progress 100)) <|
  mthen (emit (Event.status "Installation completed successfully!")) <|
  emit (Event.finished true successMsg)

/-- `run` from the stage-7 check on (lines 70-74). -/
def stage7Tail (env : Env) (cfg : Config) : M Unit :=
  mbind (installBootloader env cfg) fun ok =>
  if ok then mthen (emit (Event.progress 95)) (finishTail env)
  else emit (Event.finished false "Bootloader installation failed")

/-- `run` from the stage-6 check on (lines 64-68). -/
def stage6Tail (env : Env) (cfg : Config) : M Unit :=
  mbind (configureSystem env cfg) fun ok =>
  if ok then mthen (emit (Event.progress 85)) (stage7Tail env cfg)
  else emit (Event.finished false "System configuration failed")

/-- `run` from the stage-5 check on (lines 58-62). -/
def stage5Tail (env : Env) (cfg : Config) : M Unit :=
  mbind (generateFstab env) fun ok =>
  if ok then mthen (emit (Event.progress 65)) (stage6Tail env cfg)
  else emit (Event.finished false "fstab generation failed")

/-- `run` from the stage-4 check on (lines 52-56). -/
def stage4Tail (env : Env) (cfg : Config) : M Unit :=
  mbind (installBaseSystem env cfg) fun ok =>
  if ok then mthen (emit (Event.progress 60)) (stage5Tail env cfg)
  else emit (Event.finished false "Base system installation failed")

/-- `run` from the stage-3 check on (lines 46-50). -/
def stage3Tail (env : Env) (cfg : Config) : M Unit :=
  mbind (mountFilesystems env) fun ok =>
  if ok then mthen (emit (Event.progress 35)) (stage4Tail env cfg)
  else emit (Event.finished false "Filesystem mounting failed")

/-- `run` from the stage-2 check on (lines 40-44). -/
def stage2Tail (env : Env) (cfg : Config) : M Unit :=
  mbind (createFilesystems env cfg) fun ok =>
  if ok then mthen (emit (Event.progress 25)) (stage3Tail env cfg)
  else emit (Event.finished false "Filesystem creation failed")

/-- `run` from the stage-1 check on (lines 34-38). -/
def stage1Tail (env : Env) (cfg : Config) : M Unit :=
  mbind (prepareDisk env cfg) fun ok =>
  if ok then mthen (emit (Event.progress 15)) (stage2Tail env cfg)
  else emit (Event.finished false "Disk preparation failed")

/-- The body of the `try:` block of `ArchInstallThread.run`. -/
def runBody (env : Env) (cfg : Config) : M Unit :=
  mthen (emit (Event.status "Starting installation...")) <|
  mthen (emit (Event.progress 0)) <|
  stage1Tail env cfg

/-- `ArchInstallThread.run`: the body under the top-level `try/except`
that logs any escaped exception and reports it as a Failure. -/
def threadRun (env : Env) (cfg : Config) (st : St) : St :=
  match runBody env cfg st with
  | (Except.ok _, st1) => st1
  | (Except.error f, st1) =>
      { st1 with events := st1.events ++
          [Event.log ("Installation error: " ++ f.describe),
           Event.finished false ("Installation error: " ++ f.describe)] }

/-- The full event trace of one run from a fresh thread state. -/
def installerRun (env : Env) (cfg : Config) : List Event :=
  (threadRun env cfg St.start).events

/-- The full subprocess-command trace of one run. -/
def installerCmds (env : Env) (cfg : Config) : List String :=
  (threadRun env cfg St.start).cmds

/-- The ordered progress checkpoints of §3 of the spec. -/
def checkpoints : List Nat := [0, 15, 25, 35, 60, 65, 85, 95, 100]

/-- The status line each of the eight stages emits first, in stage order;
a stage's status appears in the trace exactly when the stage was invoked. -/
def stageStatuses : List String :=
  ["Preparing disk...", "Creating filesystems...", "Mounting filesystems...",
   "Installing base system...", "Generating fstab...", "Configuring system...",
   "Installing bootloader...", "Cleaning up..."]

def progOf : Event → Option Nat
  | Event.progress n => some n
  | _ => none

def finOf : Event → Option (Bool × String)
  | Event.finished b m => some (b, m)
  | _ => none

def statusOf : Event → Option String
  | Event.status s => if stageStatuses.contains s then some s else none
  | _ => none

/-- The progress values of a trace, in emission order. -/
def progressValues (es : List Event) : List Nat := es.filterMap progOf

/-- The stage statuses of a trace, in emission order. -/
def statusTrace (es : List Event) : List String := es.filterMap statusOf

/-- The terminal `finished` events of a trace. -/
def finishedTrace (es : List Event) : List (Bool × String) := es.filterMap finOf

/-- A computation that only appends log lines to the trace: no progress,
no terminal event, no stage status. -/
def LogOnly {α : Type} (m : M α) : Prop :=
  ∀ st : St, ∃ l : List Event,
    ((m st).2).events = st.events ++ l ∧
    l.filterMap progOf = [] ∧
    l.filterMap finOf = [] ∧
    l.filterMap statusOf = []

/-- A stage's observable contract: it announces its own status once and
otherwise only logs. -/
def StageEmits {α : Type} (s : String) (m : M α) : Prop :=
  ∀ st : St, ∃ l : List Event,
    ((m st).2).events = st.events ++ l ∧
    l.filterMap progOf = [] ∧
    l.filterMap finOf = [] ∧
    l.filterMap statusOf = [s]

/-- A computation that cannot raise. -/
def NoFault {α : Type} (m : M α) : Prop :=
  ∀ st : St, ∃ (a : α) (st1 : St), m st = (Except.ok a, st1)

/-- Characterization of a tail of `run` entered with `lo` progress values
already emitted (`lo - 1` stage statuses already emitted): it ends with
total progress count `k`, appends exactly the remaining checkpoint /
status slices, and either terminates with one `finished` event or
escapes with a fault (caught later at the top level). -/
def TailOut (m : M Unit) (lo : Nat) : Prop :=
  ∀ st : St, ∃ (k : Nat) (l : List Event) (st1 : St) (b : Bool),
    lo ≤ k ∧ k ≤ 9 ∧
    st1.events = st.events ++ l ∧
    l.filterMap progOf = (checkpoints.take k).drop lo ∧
    l.filterMap statusOf = (stageStatuses.take (min k 8)).drop (lo - 1) ∧
    (b = true ↔ k = 9) ∧
    ((m st = (Except.ok (), st1) ∧ ∃ msg, l.filterMap finOf = [(b, msg)]) ∨
     (b = false ∧ ∃ f, m st = (Except.error f, st1) ∧ l.filterMap finOf = []))

/-- Environment-specific success: under `env`, `m` returns `Except.ok v`
and leaves the stored partition attributes untouched. -/
def OkRun {α : Type} (m : M α) (v : α) : Prop :=
  ∀ st : St, ∃ st1 : St, m st = (Except.ok v, st1) ∧
    st1.efiPart = st.efiPart ∧ st1.rootPart = st.rootPart

/-- Success under an environment while the stored partition attributes
are `e`/`r`, preserving them. -/
def PartsAt (e r : String) {α : Type} (m : M α) (v : α) : Prop :=
  ∀ st : St, st.efiPart = some e → st.rootPart = some r →
    ∃ st1 : St, m st = (Except.ok v, st1) ∧
      st1.efiPart = some e ∧ st1.rootPart = some r

/-- A configuration with every key absent. -/
def cfgEmpty : Config :=
  { disk := none, hostname := none, username := none, password := none,
    root_password := none, keymap := none, timezone := none, locale := none,
    packages := none }

/-- An environment in which the disk exists, every command exits 0
silently and every direct file operation succeeds. -/
def envOK : Env :=
  { pathExists := fun _ => true,
    cmd := fun _ _ => CmdOutcome.exits 0 [],
    fsOk := fun _ _ => true }

/-- An environment in which no path exists. -/
def envNoDisk : Env :=
  { pathExists := fun _ => false,
    cmd := fun _ _ => CmdOutcome.exits 0 [],
    fsOk := fun _ _ => true }

/-- An environment in which every direct file operation raises. -/
def envBadFS : Env :=
  { pathExists := fun _ => true,
    cmd := fun _ _ => CmdOutcome.exits 0 [],
    fsOk := fun _ _ => false }

/-- An environment in which exactly the two GRUB install invocations
raise while spawning, and every other external effect succeeds. -/
def envDualFail : Env :=
  { pathExists := fun _ => true,
    cmd := fun _ c =>
      if c == efiInstallCmd || c == biosInstallCmd "/dev/sda"
      then CmdOutcome.raises "spawn failed" else CmdOutcome.exits 0 [],
    fsOk := fun _ _ => true }

/-- The log lines one `_run_command` call forwards, as a function of the
oracle's outcome for that invocation. -/
def cmdLog (env : Env) (i : Nat) (c : String) (check : Bool) : List Event :=
  Event.log ("Executing: " ++ c) ::
    (match env.cmd i c with
     | CmdOutcome.raises msg => [Event.log ("Command execution error: " ++ msg)]
     | CmdOutcome.exits code output =>
         output.map Event.log ++
           (if check && !(code == 0)
            then [Event.log ("Command failed with return code " ++ toString code)]
            else []))

/-- A thread state in which `_create_filesystems` has already stored the
partition attributes for `/dev/sda`. -/
def stWithParts : St :=
  { St.start with efiPart := some "/dev/sda1", rootPart := some "/dev/sda2" }

/-! ### Basic lemmas about the observation functions and combinators -/

@[simp] theorem progOf_progress (n : Nat) : progOf (Event.progress n) = some n := rfl
@[simp] theorem progOf_status (s : String) : progOf (Event.status s) = none := rfl
@[simp] theorem progOf_log (s : String) : progOf (Event.log s) = none := rfl
@[simp] theorem progOf_finished (b : Bool) (m : String) : progOf (Event.finished b m) = none := rfl

@[simp] theorem finOf_progress (n : Nat) : finOf (Event.progress n) = none := rfl
@[simp] theorem finOf_status (s : String) : finOf (Event.status s) = none := rfl
@[simp] theorem finOf_log (s : String) : finOf (Event.log s) = none := rfl
@[simp] theorem finOf_finished (b : Bool) (m : String) : finOf (Event.finished b m) = some (b, m) := rfl

@[simp] theorem statusOf_progress (n : Nat) : statusOf (Event.progress n) = none := rfl
@[simp] theorem statusOf_log (s : String) : statusOf (Event.log s) = none := rfl
@[simp] theorem statusOf_finished (b : Bool) (m : String) : statusOf (Event.finished b m) = none := rfl

theorem mbind_ok {α β : Type} {x : M α} {f : α → M β} {st st1 : St} {a : α}
    (h : x st = (Except.ok a, st1)) : mbind x f st = f a st1 := by
  simp only [mbind, h]

theorem mbind_err {α β : Type} {x : M α} {f : α → M β} {st st1 : St} {e : Fault}
    (h : x st = (Except.error e, st1)) : mbind x f st = (Except.error e, st1) := by
  simp only [mbind, h]

theorem mthen_ok {α β : Type} {x : M α} {y : M β} {st st1 : St} {a : α}
    (h : x st = (Except.ok a, st1)) : mthen x y st = y st1 := by
  simp only [mthen, mbind, h]

theorem mthen_err {α β : Type} {x : M α} {y : M β} {st st1 : St} {e : Fault}
    (h : x st = (Except.error e, st1)) : mthen x y st = (Except.error e, st1) := by
  simp only [mthen, mbind, h]

theorem step_true {x : M Bool} {y : M Bool} {st st1 : St}
    (h : x st = (Except.ok true, st1)) : step x y st = y st1 := by
  simp only [step, mbind, h, if_pos]

theorem step_false {x : M Bool} {y : M Bool} {st st1 : St}
    (h : x st = (Except.ok false, st1)) : step x y st = (Except.ok false, st1) := by
  simp only [step, mbind, h, Bool.false_eq_true, if_false, mret]

theorem emit_apply (e : Event) (st : St) : emit e st = (Except.ok (), st.push e) := rfl

@[simp] theorem push_events (st : St) (e : Event) : (st.push e).events = st.events ++ [e] := rfl

theorem mthen_emit {β : Type} (e : Event) (y : M β) (st : St) :
    mthen (emit e) y st = y (st.push e) := rfl

/-! ### LogOnly closure lemmas -/

theorem logOnly_mret {α : Type} (a : α) : LogOnly (mret a) := by
  intro st
  exact ⟨[], by simp [mret], rfl, rfl, rfl⟩

theorem logOnly_emit_log (s : String) : LogOnly (emit (Event.log s)) := by
  intro st
  exact ⟨[Event.log s], rfl, rfl, rfl, rfl⟩

theorem filterMap_map_log_prog (l : List String) :
    (l.map Event.log).filterMap progOf = [] := by
  induction l with
  | nil => rfl
  | cons a t ih => simp [ih]

theorem filterMap_map_log_fin (l : List String) :
    (l.map Event.log).filterMap finOf = [] := by
  induction l with
  | nil => rfl
  | cons a t ih => simp [ih]

theorem filterMap_map_log_status (l : List String) :
    (l.map Event.log).filterMap statusOf = [] := by
  induction l with
  | nil => rfl
  | cons a t ih => simp [ih]

theorem logOnly_runCommand (env : Env) (c d : String) (check : Bool) :
    LogOnly (runCommand env c d check) := by
  intro st
  unfold runCommand
  cases h : env.cmd st.cmdIdx c with
  | raises msg =>
      refine ⟨[Event.log ("Executing: " ++ c), Event.log ("Command execution error: " ++ msg)], ?_, rfl, rfl, rfl⟩
      simp [h]
  | exits code output =>
      by_cases hc : (check && !(code == 0)) = true
      · refine ⟨Event.log ("Executing: " ++ c) :: (output.map Event.log ++ [Event.log ("Command failed with return code " ++ toString code)]), ?_, ?_, ?_, ?_⟩
        · simp [h, hc]
        · simp [List.filterMap_append, filterMap_map_log_prog]
        · simp [List.filterMap_append, filterMap_map_log_fin]
        · simp [List.filterMap_append, filterMap_map_log_status]
      · refine ⟨Event.log ("Executing: " ++ c) :: output.map Event.log, ?_, ?_, ?_, ?_⟩
        · simp [h, hc]
        · simp [filterMap_map_log_prog]
        · simp [filterMap_map_log_fin]
        · simp [filterMap_map_log_status]

theorem logOnly_writeFile (env : Env) (p c : String) : LogOnly (writeFile env p c) := by
  intro st
  unfold writeFile
  by_cases h : env.fsOk st.fsIdx p = true
  · exact ⟨[], by simp [h], rfl, rfl, rfl⟩
  · exact ⟨[], by simp [h], rfl, rfl, rfl⟩

theorem logOnly_makeDirs (env : Env) (p : String) : LogOnly (makeDirs env p) := by
  intro st
  unfold makeDirs
  by_cases h : env.fsOk st.fsIdx p = true
  · exact ⟨[], by simp [h], rfl, rfl, rfl⟩
  · exact ⟨[], by simp [h], rfl, rfl, rfl⟩

theorem logOnly_setParts (e r : String) : LogOnly (setParts e r) := by
  intro st
  exact ⟨[], by simp [setParts], rfl, rfl, rfl⟩

theorem logOnly_getRootPart : LogOnly getRootPart := by
  intro st
  unfold getRootPart
  cases h : st.rootPart <;> exact ⟨[], by simp, rfl, rfl, rfl⟩

theorem logOnly_getEfiPart : LogOnly getEfiPart := by
  intro st
  unfold getEfiPart
  cases h : st.efiPart <;> exact ⟨[], by simp, rfl, rfl, rfl⟩

theorem logOnly_mbind {α β : Type} {x : M α} {f : α → M β}
    (hx : LogOnly x) (hf : ∀ a, LogOnly (f a)) : LogOnly (mbind x f) := by
  intro st
  obtain ⟨l1, h1, p1, f1, s1⟩ := hx st
  cases hx2 : x st with
  | mk r st1 =>
    rw [hx2] at h1
    cases r with
    | error e =>
        refine ⟨l1, ?_, p1, f1, s1⟩
        rw [mbind_err hx2]
        exact h1
    | ok a =>
        obtain ⟨l2, h2, p2, f2, s2⟩ := hf a st1
        refine ⟨l1 ++ l2, ?_, ?_, ?_, ?_⟩
        · rw [mbind_ok hx2, h2, h1, List.append_assoc]
        · simp [List.filterMap_append, p1, p2]
        · simp [List.filterMap_append, f1, f2]
        · simp [List.filterMap_append, s1, s2]

theorem logOnly_mthen {α β : Type} {x : M α} {y : M β}
    (hx : LogOnly x) (hy : LogOnly y) : LogOnly (mthen x y) :=
  logOnly_mbind hx fun _ => hy

theorem logOnly_step {x : M Bool} {y : M Bool}
    (hx : LogOnly x) (hy : LogOnly y) : LogOnly (step x y) := by
  refine logOnly_mbind hx fun a => ?_
  cases a
  · simpa using logOnly_mret false
  · simpa using hy

theorem logOnly_ite {α : Type} (c : Prop) [Decidable c] {x y : M α}
    (hx : LogOnly x) (hy : LogOnly y) : LogOnly (if c then x else y) := by
  by_cases h : c
  · simpa [h] using hx
  · simpa [h] using hy

/-! ### Each stage announces its own status once and otherwise only logs -/

theorem stageEmits_of {α : Type} (s : String) (rest : M α)
    (hs : statusOf (Event.status s) = some s) (hr : LogOnly rest) :
    StageEmits s (mthen (emit (Event.status s)) rest) := by
  intro st
  obtain ⟨l, h, p, f, s1⟩ := hr (st.push (Event.status s))
  refine ⟨Event.status s :: l, ?_, ?_, ?_, ?_⟩
  · rw [mthen_emit, h]
    simp
  · simp [p]
  · simp [f]
  · simp [List.filterMap_cons, hs, s1]

theorem prepareDisk_emits (env : Env) (cfg : Config) :
    StageEmits "Preparing disk..." (prepareDisk env cfg) := by
  unfold prepareDisk
  refine stageEmits_of _ _ rfl ?_
  apply logOnly_ite
  · apply logOnly_mthen (logOnly_emit_log _)
    apply logOnly_mthen (logOnly_runCommand _ _ _ _)
    apply logOnly_mthen (logOnly_emit_log _)
    apply logOnly_step (logOnly_runCommand _ _ _ _)
    apply logOnly_mthen (logOnly_emit_log _)
    apply logOnly_step (logOnly_runCommand _ _ _ _)
    apply logOnly_step (logOnly_runCommand _ _ _ _)
    apply logOnly_mthen (logOnly_emit_log _)
    apply logOnly_step (logOnly_runCommand _ _ _ _)
    exact logOnly_mthen (logOnly_runCommand _ _ _ _) (logOnly_mret true)
  · exact logOnly_mthen (logOnly_emit_log _) (logOnly_mret false)

theorem createFilesystems_emits (env : Env) (cfg : Config) :
    StageEmits "Creating filesystems..." (createFilesystems env cfg) := by
  unfold createFilesystems
  refine stageEmits_of _ _ rfl ?_
  apply logOnly_mthen (logOnly_emit_log _)
  apply logOnly_step (logOnly_runCommand _ _ _ _)
  apply logOnly_mthen (logOnly_emit_log _)
  apply logOnly_step (logOnly_runCommand _ _ _ _)
  exact logOnly_mthen (logOnly_setParts _ _) (logOnly_mret true)

theorem mountFilesystems_emits (env : Env) :
    StageEmits "Mounting filesystems..." (mountFilesystems env) := by
  unfold mountFilesystems
  refine stageEmits_of _ _ rfl ?_
  apply logOnly_mthen (logOnly_makeDirs _ _)
  apply logOnly_mthen (logOnly_emit_log _)
  refine logOnly_mbind logOnly_getRootPart fun rp => ?_
  apply logOnly_step (logOnly_runCommand _ _ _ _)
  apply logOnly_mthen (logOnly_emit_log _)
  apply logOnly_mthen (logOnly_makeDirs _ _)
  apply logOnly_mthen (logOnly_emit_log _)
  refine logOnly_mbind logOnly_getEfiPart fun ep => ?_
  exact logOnly_step (logOnly_runCommand _ _ _ _) (logOnly_mret true)

theorem installBaseSystem_emits (env : Env) (cfg : Config) :
    StageEmits "Installing base system..." (installBaseSystem env cfg) := by
  unfold installBaseSystem
  refine stageEmits_of _ _ rfl ?_
  apply logOnly_mthen (logOnly_emit_log _)
  exact logOnly_step (logOnly_runCommand _ _ _ _) (logOnly_mret true)

theorem generateFstab_emits (env : Env) :
    StageEmits "Generating fstab..." (generateFstab env) := by
  unfold generateFstab
  refine stageEmits_of _ _ rfl ?_
  apply logOnly_mthen (logOnly_emit_log _)
  exact logOnly_step (logOnly_runCommand _ _ _ _) (logOnly_mret true)

theorem logOnly_rootPasswordStep (env : Env) (cfg : Config) :
    LogOnly (rootPasswordStep env cfg) := by
  unfold rootPasswordStep
  apply logOnly_ite
  · exact logOnly_mthen (logOnly_emit_log _) (logOnly_runCommand _ _ _ _)
  · exact logOnly_mret true

theorem logOnly_userCreateStep (env : Env) (cfg : Config) :
    LogOnly (userCreateStep env cfg) := by
  unfold userCreateStep
  apply logOnly_ite
  · apply logOnly_mthen (logOnly_emit_log _)
    exact logOnly_step (logOnly_runCommand _ _ _ _) (logOnly_runCommand _ _ _ _)
  · exact logOnly_mret true

theorem configureSystem_emits (env : Env) (cfg : Config) :
    StageEmits "Configuring system..." (configureSystem env cfg) := by
  unfold configureSystem
  refine stageEmits_of _ _ rfl ?_
  apply logOnly_mthen (logOnly_emit_log _)
  apply logOnly_step (logOnly_runCommand _ _ _ _)
  apply logOnly_step (logOnly_runCommand _ _ _ _)
  apply logOnly_mthen (logOnly_emit_log _)
  apply logOnly_step (logOnly_runCommand _ _ _ _)
  apply logOnly_step (logOnly_ite _ (logOnly_runCommand _ _ _ _) (logOnly_mret true))
  apply logOnly_step (logOnly_runCommand _ _ _ _)
  apply logOnly_mthen (logOnly_writeFile _ _ _)
  apply logOnly_mthen (logOnly_writeFile _ _ _)
  apply logOnly_mthen (logOnly_writeFile _ _ _)
  apply logOnly_mthen (logOnly_writeFile _ _ _)
  apply logOnly_step (logOnly_rootPasswordStep _ _)
  apply logOnly_step (logOnly_userCreateStep _ _)
  apply logOnly_mthen (logOnly_emit_log _)
  apply logOnly_step (logOnly_runCommand _ _ _ _)
  apply logOnly_mthen (logOnly_emit_log _)
  apply logOnly_step (logOnly_runCommand _ _ _ _)
  apply logOnly_mthen (logOnly_emit_log _)
  exact logOnly_step (logOnly_runCommand _ _ _ _) (logOnly_mret true)

theorem installBootloader_emits (env : Env) (cfg : Config) :
    StageEmits "Installing bootloader..." (installBootloader env cfg) := by
  unfold installBootloader
  refine stageEmits_of _ _ rfl ?_
  apply logOnly_mthen (logOnly_emit_log _)
  apply logOnly_mthen (logOnly_runCommand _ _ _ _)
  apply logOnly_mthen (logOnly_emit_log _)
  apply logOnly_step (logOnly_runCommand _ _ _ _)
  apply logOnly_mthen (logOnly_emit_log _)
  refine logOnly_mbind (logOnly_runCommand _ _ _ _) fun efiSuccess => ?_
  refine logOnly_mbind (logOnly_runCommand _ _ _ _) fun biosSuccess => ?_
  apply logOnly_mthen (logOnly_ite _ (logOnly_emit_log _) (logOnly_mret ()))
  apply logOnly_mthen (logOnly_ite _ (logOnly_emit_log _) (logOnly_mret ()))
  apply logOnly_mthen (logOnly_ite _ (logOnly_emit_log _) (logOnly_mret ()))
  apply logOnly_mthen (logOnly_emit_log _)
  apply logOnly_step (logOnly_runCommand _ _ _ _)
  apply logOnly_mthen (logOnly_emit_log _)
  apply logOnly_mthen (logOnly_runCommand _ _ _ _)
  apply logOnly_mthen (logOnly_runCommand _ _ _ _)
  refine logOnly_mbind logOnly_getRootPart fun rp => ?_
  apply logOnly_mthen (logOnly_writeFile _ _ _)
  apply logOnly_mthen (logOnly_emit_log _)
  exact logOnly_mthen (logOnly_runCommand _ _ _ _) (logOnly_mret true)

theorem cleanupInstallation_emits (env : Env) :
    StageEmits "Cleaning up..." (cleanupInstallation env) := by
  unfold cleanupInstallation
  refine stageEmits_of _ _ rfl ?_
  apply logOnly_mthen (logOnly_emit_log _)
  exact logOnly_mthen (logOnly_runCommand _ _ _ _) (logOnly_emit_log _)

/-! ### NoFault: computations that translate every outcome to a value -/

theorem noFault_mret {α : Type} (a : α) : NoFault (mret a) :=
  fun st => ⟨a, st, rfl⟩

theorem noFault_emit (e : Event) : NoFault (emit e) :=
  fun st => ⟨(), st.push e, rfl⟩

/-- Full evaluation of one `_run_command` call: the result is always
`Except.ok` of `cmdResult`, the command is recorded, one oracle slot is
consumed, and only events are appended. -/
theorem runCommand_eval (env : Env) (c d : String) (check : Bool) (st : St) :
    ∃ le : List Event, runCommand env c d check st =
      (Except.ok (cmdResult env st.cmdIdx c check),
       { st with events := st.events ++ le, cmds := st.cmds ++ [c],
                 cmdIdx := st.cmdIdx + 1 }) := by
  unfold runCommand cmdResult
  cases h : env.cmd st.cmdIdx c with
  | raises msg =>
      refine ⟨[Event.log ("Executing: " ++ c), Event.log ("Command execution error: " ++ msg)], ?_⟩
      simp
  | exits code output =>
      by_cases hc : (check && !(code == 0)) = true
      · refine ⟨Event.log ("Executing: " ++ c) ::
          (output.map Event.log ++ [Event.log ("Command failed with return code " ++ toString code)]), ?_⟩
        simp [hc]
      · refine ⟨Event.log ("Executing: " ++ c) :: output.map Event.log, ?_⟩
        simp [hc]

theorem noFault_runCommand (env : Env) (c d : String) (check : Bool) :
    NoFault (runCommand env c d check) := by
  intro st
  obtain ⟨le, h⟩ := runCommand_eval env c d check st
  exact ⟨_, _, h⟩

theorem noFault_setParts (e r : String) : NoFault (setParts e r) :=
  fun st => ⟨(), _, rfl⟩

theorem noFault_mbind {α β : Type} {x : M α} {f : α → M β}
    (hx : NoFault x) (hf : ∀ a, NoFault (f a)) : NoFault (mbind x f) := by
  intro st
  obtain ⟨a, st1, h1⟩ := hx st
  obtain ⟨b, st2, h2⟩ := hf a st1
  exact ⟨b, st2, by rw [mbind_ok h1, h2]⟩

theorem noFault_mthen {α β : Type} {x : M α} {y : M β}
    (hx : NoFault x) (hy : NoFault y) : NoFault (mthen x y) :=
  noFault_mbind hx fun _ => hy

theorem noFault_step {x : M Bool} {y : M Bool}
    (hx : NoFault x) (hy : NoFault y) : NoFault (step x y) := by
  refine noFault_mbind hx fun a => ?_
  cases a
  · simpa using noFault_mret false
  · simpa using hy

theorem noFault_ite {α : Type} (c : Prop) [Decidable c] {x y : M α}
    (hx : NoFault x) (hy : NoFault y) : NoFault (if c then x else y) := by
  by_cases h : c
  · simpa [h] using hx
  · simpa [h] using hy

theorem noFault_prepareDisk (env : Env) (cfg : Config) : NoFault (prepareDisk env cfg) := by
  unfold prepareDisk
  apply noFault_mthen (noFault_emit _)
  apply noFault_ite
  · apply noFault_mthen (noFault_emit _)
    apply noFault_mthen (noFault_runCommand _ _ _ _)
    apply noFault_mthen (noFault_emit _)
    apply noFault_step (noFault_runCommand _ _ _ _)
    apply noFault_mthen (noFault_emit _)
    apply noFault_step (noFault_runCommand _ _ _ _)
    apply noFault_step (noFault_runCommand _ _ _ _)
    apply noFault_mthen (noFault_emit _)
    apply noFault_step (noFault_runCommand _ _ _ _)
    exact noFault_mthen (noFault_runCommand _ _ _ _) (noFault_mret true)
  · exact noFault_mthen (noFault_emit _) (noFault_mret false)

theorem noFault_createFilesystems (env : Env) (cfg : Config) :
    NoFault (createFilesystems env cfg) := by
  unfold createFilesystems
  apply noFault_mthen (noFault_emit _)
  apply noFault_mthen (noFault_emit _)
  apply noFault_step (noFault_runCommand _ _ _ _)
  apply noFault_mthen (noFault_emit _)
  apply noFault_step (noFault_runCommand _ _ _ _)
  exact noFault_mthen (noFault_setParts _ _) (noFault_mret true)

theorem noFault_installBaseSystem (env : Env) (cfg : Config) :
    NoFault (installBaseSystem env cfg) := by
  unfold installBaseSystem
  apply noFault_mthen (noFault_emit _)
  apply noFault_mthen (noFault_emit _)
  exact noFault_step (noFault_runCommand _ _ _ _) (noFault_mret true)

theorem noFault_generateFstab (env : Env) : NoFault (generateFstab env) := by
  unfold generateFstab
  apply noFault_mthen (noFault_emit _)
  apply noFault_mthen (noFault_emit _)
  exact noFault_step (noFault_runCommand _ _ _ _) (noFault_mret true)

theorem noFault_cleanup (env : Env) : NoFault (cleanupInstallation env) := by
  unfold cleanupInstallation
  apply noFault_mthen (noFault_emit _)
  apply noFault_mthen (noFault_emit _)
  exact noFault_mthen (noFault_runCommand _ _ _ _) (noFault_emit _)

/-! ### The orchestrator's progress/status/terminal characterization -/

@[simp] theorem statusOf_starting :
    statusOf (Event.status "Starting installation...") = none := rfl

@[simp] theorem statusOf_completed :
    statusOf (Event.status "Installation completed successfully!") = none := rfl

theorem take_drop_nil {α : Type} (L : List α) (n : Nat) : (L.take n).drop n = [] := by
  rw [List.drop_take]
  simp

theorem take_drop_step {α : Type} {L : List α} {i : Nat} {c : α}
    (hc : L.drop i = c :: L.drop (i + 1)) {k : Nat} (hk : i + 1 ≤ k) :
    (L.take k).drop i = c :: (L.take k).drop (i + 1) := by
  rw [List.drop_take, List.drop_take, hc, show k - i = (k - (i + 1)) + 1 from by omega,
    List.take_succ_cons]

theorem finishTail_tailOut (env : Env) : TailOut (finishTail env) 8 := by
  intro st
  obtain ⟨lc, hce, hcp, hcf, hcs⟩ := cleanupInstallation_emits env st
  obtain ⟨a, st', hs'⟩ := noFault_cleanup env st
  rw [hs'] at hce
  have hce2 : st'.events = st.events ++ lc := hce
  refine ⟨9, lc ++ [Event.progress 100, Event.status "Installation completed successfully!",
      Event.finished true successMsg],
      ((st'.push (Event.progress 100)).push
        (Event.status "Installation completed successfully!")).push
        (Event.finished true successMsg),
      true, by omega, le_refl 9, ?_, ?_, ?_,
      ⟨fun _ => rfl, fun _ => rfl⟩, Or.inl ⟨?_, successMsg, ?_⟩⟩
  · simp [St.push, hce2]
  · simp [List.filterMap_append, hcp]
    decide
  · simp [List.filterMap_append, hcs]
    decide
  · unfold finishTail
    rw [mthen_ok hs']
    rfl
  · simp [List.filterMap_append, hcf]

theorem tailOut_cons {m : M Bool} {next : M Unit} {lo : Nat} {c : Nat} {s msg : String}
    (hlo1 : 1 ≤ lo) (hlo7 : lo ≤ 7)
    (hc : checkpoints.drop lo = c :: checkpoints.drop (lo + 1))
    (hs : stageStatuses.drop (lo - 1) = s :: stageStatuses.drop lo)
    (hm : StageEmits s m) (hnext : TailOut next (lo + 1)) :
    TailOut (mbind m fun ok =>
      if ok then mthen (emit (Event.progress c)) next
      else emit (Event.finished false msg)) lo := by
  intro st
  obtain ⟨ls, hse, hsp, hsf, hss⟩ := hm st
  cases hx : m st with
  | mk r st' =>
    rw [hx] at hse
    have hse2 : st'.events = st.events ++ ls := hse
    cases r with
    | error f =>
        refine ⟨lo, ls, st', false, le_refl lo, by omega, hse2, ?_, ?_,
          ⟨fun h => by simp at h, fun h => by omega⟩,
          Or.inr ⟨rfl, f, mbind_err hx, hsf⟩⟩
        · rw [hsp, take_drop_nil]
        · rw [hss, Nat.min_eq_left (by omega : lo ≤ 8), List.drop_take,
            show lo - (lo - 1) = 1 from by omega, hs]
          rfl
    | ok b =>
      cases b with
      | false =>
          refine ⟨lo, ls ++ [Event.finished false msg], st'.push (Event.finished false msg),
            false, le_refl lo, by omega, ?_, ?_, ?_,
            ⟨fun h => by simp at h, fun h => by omega⟩, Or.inl ⟨?_, msg, ?_⟩⟩
          · simp [St.push, hse2]
          · simp [List.filterMap_append, hsp, take_drop_nil]
          · simp only [List.filterMap_append, hss]
            rw [Nat.min_eq_left (by omega : lo ≤ 8), List.drop_take,
              show lo - (lo - 1) = 1 from by omega, hs]
            simp
          · rw [mbind_ok hx]
            rfl
          · simp [List.filterMap_append, hsf]
      | true =>
          obtain ⟨k, l2, st1, b2, hk1, hk2, he2, hp2, hs2, hb2, hout2⟩ :=
            hnext (st'.push (Event.progress c))
          have hrun : mbind m (fun ok =>
              if ok then mthen (emit (Event.progress c)) next
              else emit (Event.finished false msg)) st
              = next (st'.push (Event.progress c)) := by
            rw [mbind_ok hx]
            rfl
          refine ⟨k, ls ++ (Event.progress c :: l2), st1, b2, by omega, hk2, ?_, ?_, ?_, hb2, ?_⟩
          · rw [he2]
            simp [St.push, hse2]
          · simp [List.filterMap_append, hsp, hp2]
            exact (take_drop_step hc (by omega)).symm
          · simp [List.filterMap_append, hss, hs2]
            have hs9 : stageStatuses.drop (lo - 1) = s :: stageStatuses.drop (lo - 1 + 1) := by
              rw [show lo - 1 + 1 = lo from by omega]
              exact hs
            have h9 := @take_drop_step String stageStatuses (lo - 1) s hs9 (min k 8) (by omega)
            rw [show lo - 1 + 1 = lo from by omega] at h9
            exact h9.symm
          · rcases hout2 with ⟨hmo, m2, hf2⟩ | ⟨hb0, f, hmo, hf2⟩
            · refine Or.inl ⟨by rw [hrun, hmo], m2, ?_⟩
              simp [List.filterMap_append, hsf, hf2]
            · refine Or.inr ⟨hb0, f, by rw [hrun, hmo], ?_⟩
              simp [List.filterMap_append, hsf, hf2]

theorem stage7Tail_tailOut (env : Env) (cfg : Config) : TailOut (stage7Tail env cfg) 7 := by
  unfold stage7Tail
  exact tailOut_cons (by omega) (by omega) (by decide) (by decide)
    (installBootloader_emits env cfg) (finishTail_tailOut env)

theorem stage6Tail_tailOut (env : Env) (cfg : Config) : TailOut (stage6Tail env cfg) 6 := by
  unfold stage6Tail
  exact tailOut_cons (by omega) (by omega) (by decide) (by decide)
    (configureSystem_emits env cfg) (stage7Tail_tailOut env cfg)

theorem stage5Tail_tailOut (env : Env) (cfg : Config) : TailOut (stage5Tail env cfg) 5 := by
  unfold stage5Tail
  exact tailOut_cons (by omega) (by omega) (by decide) (by decide)
    (generateFstab_emits env) (stage6Tail_tailOut env cfg)

theorem stage4Tail_tailOut (env : Env) (cfg : Config) : TailOut (stage4Tail env cfg) 4 := by
  unfold stage4Tail
  exact tailOut_cons (by omega) (by omega) (by decide) (by decide)
    (installBaseSystem_emits env cfg) (stage5Tail_tailOut env cfg)

theorem stage3Tail_tailOut (env : Env) (cfg : Config) : TailOut (stage3Tail env cfg) 3 := by
  unfold stage3Tail
  exact tailOut_cons (by omega) (by omega) (by decide) (by decide)
    (mountFilesystems_emits env) (stage4Tail_tailOut env cfg)

theorem stage2Tail_tailOut (env : Env) (cfg : Config) : TailOut (stage2Tail env cfg) 2 := by
  unfold stage2Tail
  exact tailOut_cons (by omega) (by omega) (by decide) (by decide)
    (createFilesystems_emits env cfg) (stage3Tail_tailOut env cfg)

theorem stage1Tail_tailOut (env : Env) (cfg : Config) : TailOut (stage1Tail env cfg) 1 := by
  unfold stage1Tail
  exact tailOut_cons (by omega) (by omega) (by decide) (by decide)
    (prepareDisk_emits env cfg) (stage2Tail_tailOut env cfg)

/-- Master characterization of one full run: the emitted progress values
are the first `k` checkpoints for some `1 ≤ k ≤ 9`, the stage statuses
are the first `min k 8` stage announcements, exactly one `finished`
event is emitted, and it reports success exactly when `k = 9`. -/
theorem run_char (env : Env) (cfg : Config) :
    ∃ (k : Nat) (b : Bool) (msg : String),
      1 ≤ k ∧ k ≤ 9 ∧
      progressValues (installerRun env cfg) = checkpoints.take k ∧
      statusTrace (installerRun env cfg) = stageStatuses.take (min k 8) ∧
      finishedTrace (installerRun env cfg) = [(b, msg)] ∧
      (b = true ↔ k = 9) := by
  obtain ⟨k, l, st1, b, hk1, hk2, he, hp, hs, hb, hout⟩ :=
    stage1Tail_tailOut env cfg
      ((St.start.push (Event.status "Starting installation...")).push (Event.progress 0))
  have hrb : runBody env cfg St.start
      = stage1Tail env cfg
        ((St.start.push (Event.status "Starting installation...")).push (Event.progress 0)) := rfl
  have hcp0 : checkpoints.drop 0 = 0 :: checkpoints.drop 1 := by decide
  have htk : checkpoints.take k = 0 :: (checkpoints.take k).drop 1 := by
    have h0 := @take_drop_step Nat checkpoints 0 0 hcp0 k (by omega)
    rwa [List.drop_zero] at h0
  rcases hout with ⟨hmo, m2, hf⟩ | ⟨hb0, f, hmo, hf⟩
  · have ht : threadRun env cfg St.start = st1 := by
      unfold threadRun
      rw [hrb, hmo]
    refine ⟨k, b, m2, hk1, hk2, ?_, ?_, ?_, hb⟩
    · rw [progressValues, installerRun, ht, he, htk]
      simp [St.start, St.push, hp]
    · rw [statusTrace, installerRun, ht, he]
      simp [St.start, St.push, hs]
    · rw [finishedTrace, installerRun, ht, he]
      simp [St.start, St.push, hf]
  · have ht : threadRun env cfg St.start
        = { st1 with events := st1.events ++
            [Event.log ("Installation error: " ++ f.describe),
             Event.finished false ("Installation error: " ++ f.describe)] } := by
      unfold threadRun
      rw [hrb, hmo]
    subst hb0
    refine ⟨k, false, "Installation error: " ++ f.describe, hk1, hk2, ?_, ?_, ?_, hb⟩
    · rw [progressValues, installerRun, ht]
      show (st1.events ++ _).filterMap progOf = _
      rw [he, htk]
      simp [St.start, St.push, List.filterMap_append, hp]
    · rw [statusTrace, installerRun, ht]
      show (st1.events ++ _).filterMap statusOf = _
      rw [he]
      simp [St.start, St.push, List.filterMap_append, hs]
    · rw [finishedTrace, installerRun, ht]
      show (st1.events ++ _).filterMap finOf = _
      rw [he]
      simp [St.start, St.push, List.filterMap_append, hf]

/-! ### Evaluation under the all-success environment `envOK` -/

@[simp] theorem push_efiPart (st : St) (e : Event) : (st.push e).efiPart = st.efiPart := rfl
@[simp] theorem push_rootPart (st : St) (e : Event) : (st.push e).rootPart = st.rootPart := rfl

theorem okRun_mret {α : Type} (a : α) : OkRun (mret a) a :=
  fun st => ⟨st, rfl, rfl, rfl⟩

theorem okRun_emit (e : Event) : OkRun (emit e) () :=
  fun st => ⟨st.push e, rfl, rfl, rfl⟩

theorem cmdResult_envOK (i : Nat) (c : String) (check : Bool) :
    cmdResult envOK i c check = true := by
  simp [cmdResult, envOK]

theorem okRun_runCommand_envOK (c d : String) (check : Bool) :
    OkRun (runCommand envOK c d check) true := by
  intro st
  obtain ⟨le, h⟩ := runCommand_eval envOK c d check st
  rw [cmdResult_envOK] at h
  exact ⟨_, h, rfl, rfl⟩

theorem okRun_writeFile_envOK (p c : String) : OkRun (writeFile envOK p c) () := by
  intro st
  refine ⟨{ st with fsIdx := st.fsIdx + 1 }, ?_, rfl, rfl⟩
  simp [writeFile, envOK]

theorem okRun_makeDirs_envOK (p : String) : OkRun (makeDirs envOK p) () := by
  intro st
  refine ⟨{ st with fsIdx := st.fsIdx + 1 }, ?_, rfl, rfl⟩
  simp [makeDirs, envOK]

theorem okRun_mbind {α β : Type} {x : M α} {f : α → M β} {a : α} {b : β}
    (hx : OkRun x a) (hf : OkRun (f a) b) : OkRun (mbind x f) b := by
  intro st
  obtain ⟨st1, h1, he1, hr1⟩ := hx st
  obtain ⟨st2, h2, he2, hr2⟩ := hf st1
  exact ⟨st2, by rw [mbind_ok h1, h2], by rw [he2, he1], by rw [hr2, hr1]⟩

theorem okRun_mthen {α β : Type} {x : M α} {y : M β} {a : α} {b : β}
    (hx : OkRun x a) (hy : OkRun y b) : OkRun (mthen x y) b :=
  okRun_mbind hx hy

theorem okRun_step {x : M Bool} {y : M Bool} {b : Bool}
    (hx : OkRun x true) (hy : OkRun y b) : OkRun (step x y) b := by
  refine okRun_mbind hx ?_
  rw [if_pos rfl]
  exact hy

theorem okRun_ite {α : Type} (c : Prop) [Decidable c] {x y : M α} {v : α}
    (hx : OkRun x v) (hy : OkRun y v) : OkRun (if c then x else y) v := by
  by_cases h : c
  · rw [if_pos h]; exact hx
  · rw [if_neg h]; exact hy

theorem okRun_prepareDisk (cfg : Config) : OkRun (prepareDisk envOK cfg) true := by
  unfold prepareDisk
  apply okRun_mthen (okRun_emit _)
  simp only [show ∀ s : String, envOK.pathExists s = true from fun _ => rfl, if_true]
  apply okRun_mthen (okRun_emit _)
  apply okRun_mthen (okRun_runCommand_envOK _ _ _)
  apply okRun_mthen (okRun_emit _)
  apply okRun_step (okRun_runCommand_envOK _ _ _)
  apply okRun_mthen (okRun_emit _)
  apply okRun_step (okRun_runCommand_envOK _ _ _)
  apply okRun_step (okRun_runCommand_envOK _ _ _)
  apply okRun_mthen (okRun_emit _)
  apply okRun_step (okRun_runCommand_envOK _ _ _)
  exact okRun_mthen (okRun_runCommand_envOK _ _ _) (okRun_mret true)

theorem createFilesystems_envOK (cfg : Config) : ∀ st : St,
    ∃ st1 : St, createFilesystems envOK cfg st = (Except.ok true, st1) ∧
      st1.efiPart = some (partitionDevs cfg.getDisk).1 ∧
      st1.rootPart = some (partitionDevs cfg.getDisk).2 := by
  intro st
  obtain ⟨st1, h1, _, _⟩ := okRun_emit (Event.status "Creating filesystems...") st
  obtain ⟨st2, h2, _, _⟩ := okRun_emit (Event.log "Formatting EFI partition...") st1
  obtain ⟨st3, h3, _, _⟩ :=
    okRun_runCommand_envOK ("mkfs.fat -F32 " ++ (partitionDevs cfg.getDisk).1) "" true st2
  obtain ⟨st4, h4, _, _⟩ := okRun_emit (Event.log "Formatting root partition...") st3
  obtain ⟨st5, h5, _, _⟩ :=
    okRun_runCommand_envOK ("mkfs.ext4 -F " ++ (partitionDevs cfg.getDisk).2) "" true st4
  have hcf : createFilesystems envOK cfg st = (Except.ok true, { st5 with efiPart := some (partitionDevs cfg.getDisk).1, rootPart := some (partitionDevs cfg.getDisk).2 }) := by
    simp only [createFilesystems]
    rw [mthen_ok h1, mthen_ok h2, step_true h3, mthen_ok h4, step_true h5]
    rfl
  exact ⟨_, hcf, rfl, rfl⟩

theorem partsAt_of_okRun {e r : String} {α : Type} {m : M α} {v : α}
    (h : OkRun m v) : PartsAt e r m v := by
  intro st he hr
  obtain ⟨st1, h1, he1, hr1⟩ := h st
  exact ⟨st1, h1, by rw [he1, he], by rw [hr1, hr]⟩

theorem partsAt_mret {e r : String} {α : Type} (a : α) : PartsAt e r (mret a) a :=
  partsAt_of_okRun (okRun_mret a)

theorem partsAt_emit {e r : String} (ev : Event) : PartsAt e r (emit ev) () :=
  partsAt_of_okRun (okRun_emit ev)

theorem partsAt_runCommand_envOK {e r : String} (c d : String) (check : Bool) :
    PartsAt e r (runCommand envOK c d check) true :=
  partsAt_of_okRun (okRun_runCommand_envOK c d check)

theorem partsAt_writeFile_envOK {e r : String} (p c : String) :
    PartsAt e r (writeFile envOK p c) () :=
  partsAt_of_okRun (okRun_writeFile_envOK p c)

theorem partsAt_makeDirs_envOK {e r : String} (p : String) :
    PartsAt e r (makeDirs envOK p) () :=
  partsAt_of_okRun (okRun_makeDirs_envOK p)

theorem partsAt_getRootPart {e r : String} : PartsAt e r getRootPart r := by
  intro st he hr
  refine ⟨st, ?_, he, hr⟩
  unfold getRootPart
  rw [hr]

theorem partsAt_getEfiPart {e r : String} : PartsAt e r getEfiPart e := by
  intro st he hr
  refine ⟨st, ?_, he, hr⟩
  unfold getEfiPart
  rw [he]

theorem partsAt_mbind {e r : String} {α β : Type} {x : M α} {f : α → M β} {a : α} {b : β}
    (hx : PartsAt e r x a) (hf : PartsAt e r (f a) b) : PartsAt e r (mbind x f) b := by
  intro st he hr
  obtain ⟨st1, h1, he1, hr1⟩ := hx st he hr
  obtain ⟨st2, h2, he2, hr2⟩ := hf st1 he1 hr1
  exact ⟨st2, by rw [mbind_ok h1, h2], he2, hr2⟩

theorem partsAt_mthen {e r : String} {α β : Type} {x : M α} {y : M β} {a : α} {b : β}
    (hx : PartsAt e r x a) (hy : PartsAt e r y b) : PartsAt e r (mthen x y) b :=
  partsAt_mbind hx hy

theorem partsAt_step {e r : String} {x : M Bool} {y : M Bool} {b : Bool}
    (hx : PartsAt e r x true) (hy : PartsAt e r y b) : PartsAt e r (step x y) b := by
  refine partsAt_mbind hx ?_
  rw [if_pos rfl]
  exact hy

theorem partsAt_ite {e r : String} {α : Type} (c : Prop) [Decidable c] {x y : M α} {v : α}
    (hx : PartsAt e r x v) (hy : PartsAt e r y v) : PartsAt e r (if c then x else y) v := by
  by_cases h : c
  · rw [if_pos h]; exact hx
  · rw [if_neg h]; exact hy

theorem partsAt_mountFilesystems (e r : String) :
    PartsAt e r (mountFilesystems envOK) true := by
  unfold mountFilesystems
  apply partsAt_mthen (partsAt_emit _)
  apply partsAt_mthen (partsAt_makeDirs_envOK _)
  apply partsAt_mthen (partsAt_emit _)
  apply partsAt_mbind partsAt_getRootPart
  apply partsAt_step (partsAt_runCommand_envOK _ _ _)
  apply partsAt_mthen (partsAt_emit _)
  apply partsAt_mthen (partsAt_makeDirs_envOK _)
  apply partsAt_mthen (partsAt_emit _)
  apply partsAt_mbind partsAt_getEfiPart
  exact partsAt_step (partsAt_runCommand_envOK _ _ _) (partsAt_mret true)

theorem okRun_installBaseSystem (cfg : Config) : OkRun (installBaseSystem envOK cfg) true := by
  unfold installBaseSystem
  apply okRun_mthen (okRun_emit _)
  apply okRun_mthen (okRun_emit _)
  exact okRun_step (okRun_runCommand_envOK _ _ _) (okRun_mret true)

theorem okRun_generateFstab : OkRun (generateFstab envOK) true := by
  unfold generateFstab
  apply okRun_mthen (okRun_emit _)
  apply okRun_mthen (okRun_emit _)
  exact okRun_step (okRun_runCommand_envOK _ _ _) (okRun_mret true)

theorem okRun_rootPasswordStep (cfg : Config) : OkRun (rootPasswordStep envOK cfg) true := by
  unfold rootPasswordStep
  apply okRun_ite
  · exact okRun_mthen (okRun_emit _) (okRun_runCommand_envOK _ _ _)
  · exact okRun_mret true

theorem okRun_userCreateStep (cfg : Config) : OkRun (userCreateStep envOK cfg) true := by
  unfold userCreateStep
  apply okRun_ite
  · apply okRun_mthen (okRun_emit _)
    exact okRun_step (okRun_runCommand_envOK _ _ _) (okRun_runCommand_envOK _ _ _)
  · exact okRun_mret true

theorem okRun_configureSystem (cfg : Config) : OkRun (configureSystem envOK cfg) true := by
  unfold configureSystem
  apply okRun_mthen (okRun_emit _)
  apply okRun_mthen (okRun_emit _)
  apply okRun_step (okRun_runCommand_envOK _ _ _)
  apply okRun_step (okRun_runCommand_envOK _ _ _)
  apply okRun_mthen (okRun_emit _)
  apply okRun_step (okRun_runCommand_envOK _ _ _)
  apply okRun_step (okRun_ite _ (okRun_runCommand_envOK _ _ _) (okRun_mret true))
  apply okRun_step (okRun_runCommand_envOK _ _ _)
  apply okRun_mthen (okRun_writeFile_envOK _ _)
  apply okRun_mthen (okRun_writeFile_envOK _ _)
  apply okRun_mthen (okRun_writeFile_envOK _ _)
  apply okRun_mthen (okRun_writeFile_envOK _ _)
  apply okRun_step (okRun_rootPasswordStep cfg)
  apply okRun_step (okRun_userCreateStep cfg)
  apply okRun_mthen (okRun_emit _)
  apply okRun_step (okRun_runCommand_envOK _ _ _)
  apply okRun_mthen (okRun_emit _)
  apply okRun_step (okRun_runCommand_envOK _ _ _)
  apply okRun_mthen (okRun_emit _)
  exact okRun_step (okRun_runCommand_envOK _ _ _) (okRun_mret true)

theorem partsAt_installBootloader (e r : String) (cfg : Config) :
    PartsAt e r (installBootloader envOK cfg) true := by
  unfold installBootloader
  apply partsAt_mthen (partsAt_emit _)
  apply partsAt_mthen (partsAt_emit _)
  apply partsAt_mthen (partsAt_runCommand_envOK _ _ _)
  apply partsAt_mthen (partsAt_emit _)
  apply partsAt_step (partsAt_runCommand_envOK _ _ _)
  apply partsAt_mthen (partsAt_emit _)
  apply partsAt_mbind (partsAt_runCommand_envOK _ _ _)
  apply partsAt_mbind (partsAt_runCommand_envOK _ _ _)
  apply partsAt_mthen (partsAt_ite _ (partsAt_emit _) (partsAt_mret ()))
  apply partsAt_mthen (partsAt_ite _ (partsAt_emit _) (partsAt_mret ()))
  apply partsAt_mthen (partsAt_ite _ (partsAt_emit _) (partsAt_mret ()))
  apply partsAt_mthen (partsAt_emit _)
  apply partsAt_step (partsAt_runCommand_envOK _ _ _)
  apply partsAt_mthen (partsAt_emit _)
  apply partsAt_mthen (partsAt_runCommand_envOK _ _ _)
  apply partsAt_mthen (partsAt_runCommand_envOK _ _ _)
  apply partsAt_mbind partsAt_getRootPart
  apply partsAt_mthen (partsAt_writeFile_envOK _ _)
  apply partsAt_mthen (partsAt_emit _)
  exact partsAt_mthen (partsAt_runCommand_envOK _ _ _) (partsAt_mret true)

theorem okRun_cleanup : OkRun (cleanupInstallation envOK) () := by
  unfold cleanupInstallation
  apply okRun_mthen (okRun_emit _)
  apply okRun_mthen (okRun_emit _)
  exact okRun_mthen (okRun_runCommand_envOK _ _ _) (okRun_emit _)

/-- Under `envOK` every run terminates with the success event, whatever
the configuration. -/
theorem envOK_run_eval (cfg : Config) :
    ∃ stL : St, threadRun envOK cfg St.start = stL.push (Event.finished true successMsg) := by
  obtain ⟨stA, hA, _, _⟩ := okRun_prepareDisk cfg
    ((St.start.push (Event.status "Starting installation...")).push (Event.progress 0))
  obtain ⟨stB, hB, heB, hrB⟩ := createFilesystems_envOK cfg (stA.push (Event.progress 15))
  obtain ⟨stC, hC, heC, hrC⟩ :=
    partsAt_mountFilesystems (partitionDevs cfg.getDisk).1 (partitionDevs cfg.getDisk).2
      (stB.push (Event.progress 25)) heB hrB
  obtain ⟨stD, hD, heD, hrD⟩ := partsAt_of_okRun (okRun_installBaseSystem cfg)
    (stC.push (Event.progress 35)) heC hrC
  obtain ⟨stE, hE, heE, hrE⟩ := partsAt_of_okRun okRun_generateFstab
    (stD.push (Event.progress 60)) heD hrD
  obtain ⟨stF, hF, heF, hrF⟩ := partsAt_of_okRun (okRun_configureSystem cfg)
    (stE.push (Event.progress 65)) heE hrE
  obtain ⟨stG, hG, heG, hrG⟩ := partsAt_installBootloader _ _ cfg
    (stF.push (Event.progress 85)) heF hrF
  obtain ⟨stH, hH, _, _⟩ := okRun_cleanup (stG.push (Event.progress 95))
  have e1 : runBody envOK cfg St.start = stage2Tail envOK cfg (stA.push (Event.progress 15)) := by
    unfold runBody
    rw [mthen_emit, mthen_emit]
    unfold stage1Tail
    rw [mbind_ok hA]
    rfl
  have e2 : stage2Tail envOK cfg (stA.push (Event.progress 15))
      = stage3Tail envOK cfg (stB.push (Event.progress 25)) := by
    unfold stage2Tail
    rw [mbind_ok hB]
    rfl
  have e3 : stage3Tail envOK cfg (stB.push (Event.progress 25))
      = stage4Tail envOK cfg (stC.push (Event.progress 35)) := by
    unfold stage3Tail
    rw [mbind_ok hC]
    rfl
  have e4 : stage4Tail envOK cfg (stC.push (Event.progress 35))
      = stage5Tail envOK cfg (stD.push (Event.progress 60)) := by
    unfold stage4Tail
    rw [mbind_ok hD]
    rfl
  have e5 : stage5Tail envOK cfg (stD.push (Event.progress 60))
      = stage6Tail envOK cfg (stE.push (Event.progress 65)) := by
    unfold stage5Tail
    rw [mbind_ok hE]
    rfl
  have e6 : stage6Tail envOK cfg (stE.push (Event.progress 65))
      = stage7Tail envOK cfg (stF.push (Event.progress 85)) := by
    unfold stage6Tail
    rw [mbind_ok hF]
    rfl
  have e7 : stage7Tail envOK cfg (stF.push (Event.progress 85))
      = finishTail envOK (stG.push (Event.progress 95)) := by
    unfold stage7Tail
    rw [mbind_ok hG]
    rfl
  have e8 : finishTail envOK (stG.push (Event.progress 95))
      = (Except.ok (), (((stH.push (Event.progress 100)).push
          (Event.status "Installation completed successfully!"))).push
          (Event.finished true successMsg)) := by
    unfold finishTail
    rw [mthen_ok hH]
    rfl
  refine ⟨(stH.push (Event.progress 100)).push
    (Event.status "Installation completed successfully!"), ?_⟩
  unfold threadRun
  rw [e1.trans (e2.trans (e3.trans (e4.trans (e5.trans (e6.trans (e7.trans e8))))))]

/-- Under `envOK` the single terminal event of any run is the success
report. -/
theorem envOK_success (cfg : Config) :
    finishedTrace (installerRun envOK cfg) = [(true, successMsg)] := by
  obtain ⟨stL, hL⟩ := envOK_run_eval cfg
  have hmem : Event.finished true successMsg ∈ installerRun envOK cfg := by
    rw [installerRun, hL]
    simp [St.push]
  obtain ⟨k, b, m, _, _, _, _, hfin, _⟩ := run_char envOK cfg
  have h2 : (true, successMsg) ∈ finishedTrace (installerRun envOK cfg) :=
    List.mem_filterMap.mpr ⟨_, hmem, rfl⟩
  rw [hfin] at h2
  rw [hfin]
  rcases List.mem_singleton.mp h2 with h3
  rw [← h3]

/-! ### Closed-form evaluation of single effects -/

theorem runCommand_closed (env : Env) (c d : String) (check : Bool) (st : St) :
    runCommand env c d check st =
      (Except.ok (cmdResult env st.cmdIdx c check),
       { st with events := st.events ++ cmdLog env st.cmdIdx c check,
                 cmds := st.cmds ++ [c], cmdIdx := st.cmdIdx + 1 }) := by
  unfold runCommand cmdResult cmdLog
  cases h : env.cmd st.cmdIdx c with
  | raises msg => simp
  | exits code output =>
      by_cases hc : (check && !(code == 0)) = true
      · simp [hc]
      · simp [hc]

theorem mthen_mret {α β : Type} (a : α) (y : M β) (st : St) :
    mthen (mret a) y st = y st := rfl

/-! ### Claim theorems -/

/-- C1: for every Configuration and environment, the progress values the
run emits are a prefix (`take k`, `1 ≤ k ≤ 9`) of the checkpoint list
`0, 15, 25, 35, 60, 65, 85, 95, 100`, in order with no regression; the
run ends at 100 (`k = 9`) exactly when the single terminal event reports
success, i.e. when all eight stages ran to completion; and on failure
(`k < 9`) the invoked stages are exactly the first `min k 8` of the
eight, so no stage after the failing one — Cleanup included — is
invoked. -/
theorem claim_progress_checkpoint_prefix (env : Env) (cfg : Config) :
    ∃ (k : Nat) (b : Bool) (msg : String),
      1 ≤ k ∧ k ≤ 9 ∧
      progressValues (installerRun env cfg) = checkpoints.take k ∧
      statusTrace (installerRun env cfg) = stageStatuses.take (min k 8) ∧
      finishedTrace (installerRun env cfg) = [(b, msg)] ∧
      (b = true ↔ k = 9) :=
  run_char env cfg

/-- C2: every run emits exactly one terminal `finished` event (faults
raised anywhere in the sequence are caught at the top level and turned
into a Failure outcome, so the run never ends without a terminal event),
and that event reports success exactly when all eight stages were
invoked and the full checkpoint list was emitted. -/
theorem claim_single_terminal_outcome (env : Env) (cfg : Config) :
    ∃ (b : Bool) (msg : String),
      finishedTrace (installerRun env cfg) = [(b, msg)] ∧
      (b = true ↔ (progressValues (installerRun env cfg) = checkpoints ∧
                   statusTrace (installerRun env cfg) = stageStatuses)) := by
  obtain ⟨k, b, m, hk1, hk2, hp, hs, hf, hb⟩ := run_char env cfg
  refine ⟨b, m, hf, ?_⟩
  constructor
  · intro hbt
    have hk9 := hb.mp hbt
    subst hk9
    constructor
    · rw [hp]
      decide
    · rw [hs]
      decide
  · rintro ⟨hpc, hsc⟩
    apply hb.mpr
    have he : checkpoints.take k = checkpoints := by rw [← hp, hpc]
    have hlen := congrArg List.length he
    rw [List.length_take] at hlen
    simp [checkpoints] at hlen
    omega

/-- C3: the Command Runner always returns `Except.ok` of a boolean (it
never propagates an exception): the boolean is `true` exactly when the
process exited with status 0 or `check` is false, and on a raised
exception the runner logs the error line and yields `false`. -/
theorem claim_command_runner_contract (env : Env) (c d : String) (check : Bool) (st : St) :
    runCommand env c d check st =
      (Except.ok (cmdResult env st.cmdIdx c check),
       { st with events := st.events ++ cmdLog env st.cmdIdx c check,
                 cmds := st.cmds ++ [c], cmdIdx := st.cmdIdx + 1 }) ∧
    (cmdResult env st.cmdIdx c check = true ↔
      ∃ (code : Int) (output : List String),
        env.cmd st.cmdIdx c = CmdOutcome.exits code output ∧ (code = 0 ∨ check = false)) ∧
    (∀ msg : String, env.cmd st.cmdIdx c = CmdOutcome.raises msg →
      cmdResult env st.cmdIdx c check = false ∧
      cmdLog env st.cmdIdx c check =
        [Event.log ("Executing: " ++ c), Event.log ("Command execution error: " ++ msg)]) := by
  refine ⟨runCommand_closed env c d check st, ?_, ?_⟩
  · unfold cmdResult
    cases h : env.cmd st.cmdIdx c with
    | raises msg =>
        simp only [Bool.false_eq_true, false_iff]
        rintro ⟨code, output, heq, hor⟩
        simp at heq
    | exits code output =>
        constructor
        · intro hb
          refine ⟨code, output, rfl, ?_⟩
          cases check
          · exact Or.inr rfl
          · simp at hb
            exact Or.inl hb
        · rintro ⟨code2, output2, heq, hor⟩
          obtain ⟨h1, h2⟩ := CmdOutcome.exits.inj heq
          subst h1
          rcases hor with h0 | hchk
          · subst h0
            simp
          · subst hchk
            simp
  · intro msg h
    unfold cmdResult cmdLog
    rw [h]
    exact ⟨rfl, rfl⟩

/-- C4: the derived partition device names follow the naming rule of
`_create_filesystems` (an `nvme`/`mmc` marker in the disk string adds a
`p` before the partition number), the `boot_part` rule in
`_install_bootloader` is the first component of the same rule, the two
concrete examples of §8 hold, and the Filesystems stage issues exactly
the two format commands on those derived names. -/
theorem claim_partition_naming (disk : String) :
    partitionDevs disk =
      (if strContains disk "nvme" || strContains disk "mmc"
       then (disk ++ "p1", disk ++ "p2") else (disk ++ "1", disk ++ "2")) ∧
    bootPartOf disk = (partitionDevs disk).1 ∧
    partitionDevs "/dev/sda" = ("/dev/sda1", "/dev/sda2") ∧
    partitionDevs "/dev/nvme0n1" = ("/dev/nvme0n1p1", "/dev/nvme0n1p2") ∧
    (∀ (cfg : Config) (st : St),
      ((createFilesystems envOK cfg st).2).cmds =
        st.cmds ++ ["mkfs.fat -F32 " ++ (partitionDevs cfg.getDisk).1,
                    "mkfs.ext4 -F " ++ (partitionDevs cfg.getDisk).2]) := by
  refine ⟨rfl, ?_, by decide, by decide, ?_⟩
  · unfold bootPartOf partitionDevs
    by_cases h : (strContains disk "nvme" || strContains disk "mmc") = true
    · rw [if_pos h, if_pos h]
    · rw [if_neg h, if_neg h]
  · intro cfg st
    simp [createFilesystems, mthen, mbind, step, emit, mret, setParts, St.push,
      runCommand_closed, cmdResult_envOK]

/-- C6: the package list handed to `pacstrap` is the deduplicated union
of the fixed base set, the fixed Kuns OS set and the user-selected
packages: it has no duplicate entries and contains a package exactly
when one of the three sets does — also concretely for the user set
`["code", "vim"]`, whose `"vim"` duplicates a default yet appears once. -/
theorem claim_package_set_union (cfg : Config) :
    (getPackagesList cfg).Nodup ∧
    (∀ p : String, p ∈ getPackagesList cfg ↔
      (p ∈ base_packages ∨ p ∈ kuns_packages ∨ p ∈ cfg.getPackages)) ∧
    (getPackagesList { cfgEmpty with packages := some ["code", "vim"] }).Nodup ∧
    "code" ∈ getPackagesList { cfgEmpty with packages := some ["code", "vim"] } ∧
    (getPackagesList { cfgEmpty with packages := some ["code", "vim"] }).count "vim" = 1 := by
  refine ⟨List.nodup_dedup _, ?_, by decide, by decide, by decide⟩
  intro p
  simp [getPackagesList, List.mem_dedup, List.mem_append, or_assoc]

/-- C5: when the configured disk path does not exist, DiskPrep fails
immediately: the run issues no subprocess command at all (the existence
check is not a subprocess) and terminates with the DiskPrep Failure
outcome. -/
theorem claim_missing_disk_aborts (env : Env) (cfg : Config)
    (h : env.pathExists cfg.getDisk = false) :
    installerCmds env cfg = [] ∧
    finishedTrace (installerRun env cfg) = [(false, "Disk preparation failed")] := by
  have hpd : prepareDisk env cfg
      ((St.start.push (Event.status "Starting installation...")).push (Event.progress 0))
      = (Except.ok false,
         ((((St.start.push (Event.status "Starting installation...")).push
            (Event.progress 0)).push (Event.status "Preparing disk...")).push
            (Event.log ("Disk " ++ cfg.getDisk ++ " does not exist")))) := by
    simp only [prepareDisk]
    rw [mthen_emit, h, if_neg (by simp), mthen_emit]
    rfl
  have hrun : threadRun env cfg St.start
      = (((((St.start.push (Event.status "Starting installation...")).push
          (Event.progress 0)).push (Event.status "Preparing disk...")).push
          (Event.log ("Disk " ++ cfg.getDisk ++ " does not exist"))).push
          (Event.finished false "Disk preparation failed")) := by
    unfold threadRun
    have e1 : runBody env cfg St.start
        = (Except.ok (),
           (((((St.start.push (Event.status "Starting installation...")).push
              (Event.progress 0)).push (Event.status "Preparing disk...")).push
              (Event.log ("Disk " ++ cfg.getDisk ++ " does not exist"))).push
              (Event.finished false "Disk preparation failed"))) := by
      unfold runBody
      rw [mthen_emit, mthen_emit]
      unfold stage1Tail
      rw [mbind_ok hpd]
      rfl
    rw [e1]
  constructor
  · rw [installerCmds, hrun]
    rfl
  · rw [finishedTrace, installerRun, hrun]
    simp [St.start, St.push]

/-- Witness for C5 at the concrete environment in which no path exists
and the empty configuration (disk defaults to `/dev/sda`). -/
theorem claim_missing_disk_aborts_witness :
    envNoDisk.pathExists cfgEmpty.getDisk = false ∧
    (installerCmds envNoDisk cfgEmpty = [] ∧
     finishedTrace (installerRun envNoDisk cfgEmpty) = [(false, "Disk preparation failed")]) :=
  ⟨rfl, claim_missing_disk_aborts envNoDisk cfgEmpty rfl⟩

/-- C7: in the Bootloader stage both the EFI-mode and the BIOS-mode
GRUB installs are attempted unconditionally with best-effort
strictness: in every environment where the strict `mkdir` and
`grub-mkconfig` commands and the config write succeed, whatever
booleans the two install attempts produce (a `check=false` invocation
yields `false` only on a spawn error), the stage runs all eight of its
commands — configuration generation included — and returns `true`;
when both attempts fail the prominent warning is logged. -/
theorem claim_bootloader_dual_attempt (env : Env) (cfg : Config) (st : St) (r : String)
    (hroot : st.rootPart = some r)
    (hmkdir : ∀ i, cmdResult env i mkdirEfiCmd true = true)
    (hmkcfg : ∀ i, cmdResult env i mkconfigCmd true = true)
    (hfs : ∀ i, env.fsOk i (mountPoint ++ "/boot/grub/grub-standalone.cfg") = true) :
    ∀ eb bb : Bool,
      (∀ i, cmdResult env i efiInstallCmd false = eb) →
      (∀ i, cmdResult env i (biosInstallCmd cfg.getDisk) false = bb) →
      (installBootloader env cfg st).1 = Except.ok true ∧
      ((installBootloader env cfg st).2).cmds = st.cmds ++
        ["parted " ++ cfg.getDisk ++ " set 1 boot on", mkdirEfiCmd, efiInstallCmd,
         biosInstallCmd cfg.getDisk, mkconfigCmd,
         "arch-chroot " ++ mountPoint ++ " mkdir -p /boot/EFI/BOOT",
         "arch-chroot " ++ mountPoint ++ " cp /boot/EFI/KunsOS/grubx64.efi /boot/EFI/BOOT/BOOTX64.EFI",
         "parted " ++ cfg.getDisk ++ " set 1 legacy_boot on"] ∧
      (eb = false → bb = false →
        Event.log "WARNING: Both EFI and BIOS installation failed!"
          ∈ ((installBootloader env cfg st).2).events) := by
  intro eb bb hefi hbios
  cases eb <;> cases bb <;>
    refine ⟨?_, ?_, ?_⟩ <;>
      simp [installBootloader, runCommand_closed, hmkdir, hefi, hbios, hmkcfg, hfs,
        mthen, mbind, step, emit, mret, St.push, getRootPart, writeFile, hroot]

/-- Witness for C7 at the concrete environment in which exactly the two
GRUB install invocations raise, with the empty configuration and the
partition attributes stored for `/dev/sda`. -/
theorem claim_bootloader_dual_attempt_witness :
    (stWithParts.rootPart = some "/dev/sda2" ∧
     (∀ i, cmdResult envDualFail i mkdirEfiCmd true = true) ∧
     (∀ i, cmdResult envDualFail i mkconfigCmd true = true) ∧
     (∀ i, envDualFail.fsOk i (mountPoint ++ "/boot/grub/grub-standalone.cfg") = true) ∧
     (∀ i, cmdResult envDualFail i efiInstallCmd false = false) ∧
     (∀ i, cmdResult envDualFail i (biosInstallCmd cfgEmpty.getDisk) false = false)) ∧
    ((installBootloader envDualFail cfgEmpty stWithParts).1 = Except.ok true ∧
     ((installBootloader envDualFail cfgEmpty stWithParts).2).cmds = stWithParts.cmds ++
       ["parted " ++ cfgEmpty.getDisk ++ " set 1 boot on", mkdirEfiCmd, efiInstallCmd,
        biosInstallCmd cfgEmpty.getDisk, mkconfigCmd,
        "arch-chroot " ++ mountPoint ++ " mkdir -p /boot/EFI/BOOT",
        "arch-chroot " ++ mountPoint ++ " cp /boot/EFI/KunsOS/grubx64.efi /boot/EFI/BOOT/BOOTX64.EFI",
        "parted " ++ cfgEmpty.getDisk ++ " set 1 legacy_boot on"] ∧
     (false = false → false = false →
       Event.log "WARNING: Both EFI and BIOS installation failed!"
         ∈ ((installBootloader envDualFail cfgEmpty stWithParts).2).events)) :=
  ⟨⟨rfl, fun _ => rfl, fun _ => rfl, fun _ => rfl, fun _ => rfl, fun _ => rfl⟩,
   claim_bootloader_dual_attempt envDualFail cfgEmpty stWithParts "/dev/sda2" rfl
     (fun _ => rfl) (fun _ => rfl) (fun _ => rfl) false false (fun _ => rfl) (fun _ => rfl)⟩

/-- C8: the root-password step of Configure is a no-op exactly when
`root_password` is the empty string — it issues the in-chroot `chpasswd`
command exactly when the password is non-empty — and under an otherwise
fully successful environment every run (in particular one whose
`root_password` is empty) still terminates with the Success outcome. -/
theorem claim_empty_root_password_skipped :
    (∀ (env : Env) (cfg : Config) (st : St), cfg.getRootPassword = "" →
      rootPasswordStep env cfg st = (Except.ok true, st)) ∧
    (∀ (env : Env) (cfg : Config) (st : St),
      ((rootPasswordStep env cfg st).2).cmds = st.cmds ++
        (if cfg.getRootPassword != "" then [rootSetCmd cfg.getRootPassword] else [])) ∧
    (∀ cfg : Config, finishedTrace (installerRun envOK cfg) = [(true, successMsg)]) := by
  refine ⟨?_, ?_, envOK_success⟩
  · intro env cfg st h
    simp [rootPasswordStep, h, mret]
  · intro env cfg st
    by_cases h : (cfg.getRootPassword != "") = true
    · simp [rootPasswordStep, h, mthen, mbind, emit, St.push, runCommand_closed]
    · simp only [Bool.not_eq_true] at h
      simp [rootPasswordStep, h, mret]

/-- Counterexample to C9 as stated: in an environment in which the
direct write of `locale.conf` raises an I/O error (every command having
succeeded), the Configure stage function does not return a boolean — it
propagates the raised fault past its own boundary. -/
theorem claim_stage_no_raise_counterexample :
    (configureSystem envBadFS cfgEmpty St.start).1
      = Except.error (Fault.ioError (mountPoint ++ "/etc/locale.conf")) := by
  rfl

/-- C9 amended: the stages built only from Command Runner invocations
and signal emissions (DiskPrep, Filesystems, BaseInstall, Fstab,
Cleanup) never propagate a fault — they always return a value — while
the stages that perform direct filesystem operations (Mount, Configure,
Bootloader) may raise; any such fault is caught by the orchestrator's
top-level handler, so every run still produces exactly one terminal
event. -/
theorem claim_stage_fault_policy :
    (∀ (env : Env) (cfg : Config), NoFault (prepareDisk env cfg)) ∧
    (∀ (env : Env) (cfg : Config), NoFault (createFilesystems env cfg)) ∧
    (∀ (env : Env) (cfg : Config), NoFault (installBaseSystem env cfg)) ∧
    (∀ env : Env, NoFault (generateFstab env)) ∧
    (∀ env : Env, NoFault (cleanupInstallation env)) ∧
    (∀ (env : Env) (cfg : Config), ∃ (b : Bool) (msg : String),
      finishedTrace (installerRun env cfg) = [(b, msg)]) := by
  refine ⟨noFault_prepareDisk, noFault_createFilesystems, noFault_installBaseSystem,
    noFault_generateFstab, noFault_cleanup, ?_⟩
  intro env cfg
  obtain ⟨k, b, m, _, _, _, _, hf, _⟩ := run_char env cfg
  exact ⟨b, m, hf⟩

/-- C10: a configuration with absent keys is never rejected — every
getter substitutes its fixed default — and a run with no `disk` key
against an environment where the device exists proceeds to partition
and format `/dev/sda` and reaches the Success outcome. -/
theorem claim_defaults_for_missing_keys (c : Config)
    (h1 : c.disk = none) (h2 : c.hostname = none) (h3 : c.username = none)
    (h4 : c.password = none) (h5 : c.root_password = none) (h6 : c.keymap = none)
    (h7 : c.timezone = none) (h8 : c.locale = none) (h9 : c.packages = none) :
    c.getDisk = "/dev/sda" ∧ c.getHostname = "kuns-os" ∧ c.getUsername = "kunsos" ∧
    c.getPassword = "" ∧ c.getRootPassword = "" ∧ c.getKeymap = "us" ∧
    c.getTimezone = "UTC" ∧ c.getLocale = "en_US.UTF-8" ∧ c.getPackages = [] ∧
    "parted -s /dev/sda mklabel gpt" ∈ installerCmds envOK c ∧
    "mkfs.fat -F32 /dev/sda1" ∈ installerCmds envOK c ∧
    "mkfs.ext4 -F /dev/sda2" ∈ installerCmds envOK c ∧
    finishedTrace (installerRun envOK c) = [(true, successMsg)] := by
  have hc : c = cfgEmpty := by
    cases c
    simp_all [cfgEmpty]
  subst hc
  refine ⟨rfl, rfl, rfl, rfl, rfl, rfl, rfl, rfl, rfl, ?_, ?_, ?_, envOK_success cfgEmpty⟩
  · decide
  · decide
  · decide

/-- Witness for C10 at the configuration with every key absent. -/
theorem claim_defaults_for_missing_keys_witness :
    cfgEmpty.getDisk = "/dev/sda" ∧ cfgEmpty.getHostname = "kuns-os" ∧
    cfgEmpty.getUsername = "kunsos" ∧ cfgEmpty.getPassword = "" ∧
    cfgEmpty.getRootPassword = "" ∧ cfgEmpty.getKeymap = "us" ∧
    cfgEmpty.getTimezone = "UTC" ∧ cfgEmpty.getLocale = "en_US.UTF-8" ∧
    cfgEmpty.getPackages = [] ∧
    "parted -s /dev/sda mklabel gpt" ∈ installerCmds envOK cfgEmpty ∧
    "mkfs.fat -F32 /dev/sda1" ∈ installerCmds envOK cfgEmpty ∧
    "mkfs.ext4 -F /dev/sda2" ∈ installerCmds envOK cfgEmpty ∧
    finishedTrace (installerRun envOK cfgEmpty) = [(true, successMsg)] :=
  claim_defaults_for_missing_keys cfgEmpty rfl rfl rfl rfl rfl rfl rfl rfl rfl
